import Mathlib

/-
Verification of the lead normalization and scoring engine of fetti-leads
(src/fetti_lead_gen_mvp.py) against its natural-language specification.

The Python code is shallowly embedded: record cells become an explicit
`Value` type (absent / string / finite float / NaN), floats become
rationals plus an explicit NaN marker, and the one statement that can
raise (the `.upper()` attribute access on the state cell, line 63) is
modelled in `Except Unit`.
-/

namespace Fetti

/-- A Python value as it occurs in a lead-record cell: absent (None),
a string, a finite float (modelled as a rational), or the float NaN. -/
inductive Value where
  | vNone
  | vStr (s : String)
  | vNum (q : Rat)
  | vNan
  deriving DecidableEq

/-- A Python float: a finite value or NaN. Infinities do not occur in the
lead data model and are omitted. -/
inductive PyFloat where
  | num (q : Rat)
  | nan
  deriving DecidableEq

/-- Python `str.lower()`, on the ASCII data of the repository (kept
structural so that concrete records evaluate inside the kernel). -/
def strLower (s : String) : String := String.mk (s.data.map Char.toLower)

/-- Python `str.upper()`, ASCII. -/
def strUpper (s : String) : String := String.mk (s.data.map Char.toUpper)

/-- Python `str.strip()`: whitespace removed from both ends. -/
def strTrim (s : String) : String :=
  String.mk (((s.data.dropWhile Char.isWhitespace).reverse.dropWhile Char.isWhitespace).reverse)

/-- Python truthiness of a cell value: None, the empty string and 0.0 are
falsy; NaN and every other float and string are truthy. -/
def pyTruthy : Value → Bool
  | Value.vNone => false
  | Value.vStr s => !s.isEmpty
  | Value.vNum q => !(q == 0)
  | Value.vNan => true

/-- Python `a or b`. -/
def pyOr (a b : Value) : Value := if pyTruthy a then a else b

/-- Python `.upper()` attribute call: succeeds only on a string; on a float
(NaN included) or None it raises AttributeError, modelled as an error. -/
def pyUpper : Value → Except Unit String
  | Value.vStr s => Except.ok (strUpper s)
  | _ => Except.error ()

/-- Rendering of a float by Python `str()`. The exact digits never matter to
any claim (no scoring keyword consists of digits, a slash or a minus sign),
so a numerator/denominator rendering stands in for the decimal one. -/
def pyStrOfNum (q : Rat) : String := toString q.num ++ "/" ++ toString q.den

/-- Lines 52-55, `safe_str`: the empty string on NaN or None (`pd.isna`),
otherwise `str(x).strip().lower()`. -/
def safe_str : Value → String
  | Value.vNan => ""
  | Value.vNone => ""
  | Value.vStr s => strLower (strTrim s)
  | Value.vNum q => strLower (strTrim (pyStrOfNum q))

def allDigits (cs : List Char) : Bool := cs.all (fun c => c.isDigit)

def digitsToNat (cs : List Char) : Nat := cs.foldl (fun a c => a * 10 + (c.toNat - 48)) 0

/-- Split a character list at the first dot, if any. -/
def splitAtDot : List Char → List Char × Option (List Char)
  | [] => ([], Option.none)
  | c :: rest =>
    if c = '.' then ([], some rest)
    else
      let r := splitAtDot rest
      (c :: r.1, r.2)

/-- An unsigned decimal literal as accepted by Python `float()`: digits with
at most one dot and at least one digit. Exponent and infinity forms do not
occur in the lead data model and are omitted. -/
def parseUnsigned (cs : List Char) : Option Rat :=
  match splitAtDot cs with
  | (ip, Option.none) =>
    if !ip.isEmpty && allDigits ip then some (digitsToNat ip : Rat) else Option.none
  | (ip, some fp) =>
    if fp.contains '.' then Option.none
    else if (!ip.isEmpty || !fp.isEmpty) && allDigits ip && allDigits fp then
      some ((digitsToNat ip : Rat) + (digitsToNat fp : Rat) / ((10 : Rat) ^ fp.length))
    else Option.none

/-- Python `float(s)` on a string: strip whitespace, optional sign, `nan`,
or a decimal literal. -/
def parseFloatStr (s : String) : Option PyFloat :=
  let t := strTrim s
  if strLower t = "nan" || strLower t = "+nan" || strLower t = "-nan" then some PyFloat.nan
  else
    match t.data with
    | '+' :: rest => (parseUnsigned rest).map PyFloat.num
    | '-' :: rest => (parseUnsigned rest).map (fun q => PyFloat.num (-q))
    | cs => (parseUnsigned cs).map PyFloat.num

/-- Lines 45-49, `safe_float(x, default)`: `float(x)` with any exception
returning the default. Every call site in `score_lead` passes None as the
default, modelled as `Option.none`. `float(None)` raises (absent), a
non-numeric string raises (absent), and NaN passes through as NaN. -/
def safe_float : Value → Option PyFloat
  | Value.vNum q => some (PyFloat.num q)
  | Value.vNan => some PyFloat.nan
  | Value.vStr s => parseFloatStr s
  | Value.vNone => Option.none

/-- Python `x < c` for a float `x` and finite threshold `c`: false when
`x` is NaN. -/
def PyFloat.lt_r : PyFloat → Rat → Bool
  | PyFloat.nan, _ => false
  | PyFloat.num q, c => decide (q < c)

/-- Python `x <= c`: false when `x` is NaN. -/
def PyFloat.le_r : PyFloat → Rat → Bool
  | PyFloat.nan, _ => false
  | PyFloat.num q, c => decide (q ≤ c)

/-- Python `x > c`: false when `x` is NaN. -/
def PyFloat.gt_r : PyFloat → Rat → Bool
  | PyFloat.nan, _ => false
  | PyFloat.num q, c => decide (c < q)

/-- Python `x >= c`: false when `x` is NaN. -/
def PyFloat.ge_r : PyFloat → Rat → Bool
  | PyFloat.nan, _ => false
  | PyFloat.num q, c => decide (c ≤ q)

/-- Python truthiness of `safe_float`'s result: None and 0.0 are falsy,
NaN and every other float truthy. -/
def pyTruthyF : Option PyFloat → Bool
  | Option.none => false
  | some PyFloat.nan => true
  | some (PyFloat.num q) => !(q == 0)

/-- Substring occurrence on character lists. -/
def listContainsSub (pat : List Char) : List Char → Bool
  | [] => pat.isEmpty
  | c :: rest => List.isPrefixOf pat (c :: rest) || listContainsSub pat rest

/-- Python substring membership `pat in s`. -/
def strContains (s pat : String) : Bool := listContainsSub pat.data s.data

/-- Line 67: keyword test for the Refi product. -/
def is_refi (purpose : String) : Bool :=
  ["refi", "refinance", "rate and term", "cash out", "cash-out"].any
    (fun k => strContains purpose k)

/-- Line 68: keyword test for the Purchase product. -/
def is_purchase (purpose : String) : Bool := strContains purpose "purchase"

/-- Line 69: keyword test for the DSCR Investor product, on occupancy. -/
def is_investor (occ : String) : Bool :=
  ["investor", "non-owner", "rental"].any (fun k => strContains occ k)

/-- Line 70: keyword test for the Bridge / Fix & Flip product. -/
def is_bridge (purpose : String) : Bool :=
  ["bridge", "fix and flip", "flip", "rehab"].any (fun k => strContains purpose k)

/-- A lead record, restricted to the fields the scoring engine reads.
Every field may hold any Python value; an absent key is `Value.vNone`
(both the dict-get default and a missing pandas column read back as a
falsy value that `safe_str`/`safe_float` treat identically). -/
structure Row where
  state : Value
  loan_purpose : Value
  occupancy : Value
  property_value : Value
  credit_score : Value
  credit_band : Value
  liquid_assets : Value
  cltv : Value
  source : Value

/-- The scoring configuration built in `view_scoring_tab` (lines 241-246). -/
structure Config where
  product_focus : String
  states : List String
  min_credit : Rat
  min_assets : Rat

/-- Line 63: `state = (row.get("state") or "").upper()` — the only statement
of the engine that can raise (NaN is truthy and has no `.upper`). -/
def stateEval (row : Row) : Except Unit String :=
  pyUpper (pyOr row.state (Value.vStr ""))

/-- Lines 88-97: the property-value contribution block. `if val:` is Python
truthiness, so 0.0 and None skip the block while NaN enters it (and then
fails every comparison). -/
def apply_value (val : Option PyFloat) (score : Int) : Int :=
  if pyTruthyF val then
    match val with
    | some v =>
      if v.ge_r 250000 && v.le_r 900000 then score + 15
      else if v.gt_r 900000 && v.le_r 2000000 then score + 12
      else if v.ge_r 150000 && v.lt_r 250000 then score + 5
      else if v.gt_r 2000000 then score + 8
      else score
    | Option.none => score
  else score

/-- Lines 123-130: the CLTV contribution block. -/
def apply_cltv (row : Row) (score : Int) : Int :=
  match safe_float row.cltv with
  | some c =>
    if c.le_r 60 then score + 15
    else if c.le_r 75 then score + 10
    else if c.le_r 85 then score + 5
    else score
  | Option.none => score

/-- Lines 132-138: the source bonus block; all applicable bonuses stack. -/
def apply_source (row : Row) (score : Int) : Int :=
  let source := safe_str row.source
  let score := if strContains source "facebook" || strContains source "meta" then score + 5 else score
  let score := if strContains source "google" then score + 5 else score
  if strContains source "data_vendor" || strContains source "list" then score + 2 else score

/-- Lines 111-140: the liquid-assets check and every block after it. A
present asset value below the minimum returns the sentinel -1; otherwise
the asset tier, CLTV and source contributions are added and the total
returned. -/
def score_assets (row : Row) (config : Config) (score : Int) : Except Unit Int :=
  match safe_float row.liquid_assets with
  | some a =>
    if a.lt_r config.min_assets then Except.ok (-1)
    else
      let score :=
        if a.ge_r 150000 then score + 15
        else if a.ge_r 75000 then score + 10
        else if a.ge_r config.min_assets then score + 5
        else score
      Except.ok (apply_source row (apply_cltv row score))
  | Option.none => Except.ok (apply_source row (apply_cltv row score))

/-- Lines 99-140: the credit-score check and every block after it. A present
credit score below `min_credit` returns the sentinel -1; NaN fails every
comparison and passes with no contribution. -/
def score_credit (row : Row) (config : Config) (score : Int) : Except Unit Int :=
  match safe_float row.credit_score with
  | some c =>
    if c.lt_r config.min_credit then Except.ok (-1)
    else
      let score :=
        if c.ge_r 740 then score + 15
        else if c.ge_r 700 then score + 10
        else if c.ge_r config.min_credit then score + 5
        else score
      score_assets row config score
  | Option.none => score_assets row config score

/-- Lines 58-140, `score_lead(row, config)`: the batch scoring engine.
Returns `Except.error ()` exactly when line 63 raises; otherwise
`Except.ok` of the sentinel -1 (rejection) or of the additive total. -/
def score_lead (row : Row) (config : Config) : Except Unit Int :=
  let purpose := safe_str row.loan_purpose
  let occ := safe_str row.occupancy
  match stateEval row with
  | Except.error e => Except.error e
  | Except.ok state =>
    let desired_product := config.product_focus
    if desired_product == "Refi" && !is_refi purpose then Except.ok (-1)
    else if desired_product == "Purchase" && !is_purchase purpose then Except.ok (-1)
    else if desired_product == "DSCR Investor" && !is_investor occ then Except.ok (-1)
    else if desired_product == "Bridge / Fix & Flip" && !is_bridge purpose then Except.ok (-1)
    else
      let score : Int := 0 + 10
      let score := if !config.states.isEmpty && config.states.contains state then score + 10 else score - 5
      let score := apply_value (safe_float row.property_value) score
      score_credit row config score

/-- The condition under which the credit check of lines 99-103 rejects:
a credit value `safe_float` can read, numerically below the minimum
(NaN compares false and never rejects). -/
def credit_rejects (row : Row) (config : Config) : Bool :=
  match safe_float row.credit_score with
  | some c => c.lt_r config.min_credit
  | Option.none => false

/-- The condition under which the assets check of lines 111-115 rejects. -/
def assets_rejects (row : Row) (config : Config) : Bool :=
  match safe_float row.liquid_assets with
  | some a => a.lt_r config.min_assets
  | Option.none => false

/-- The product gate of lines 72-79, packaged: true when the desired
product's keyword set matches (or no specific product is desired). -/
def product_match (desired purpose occ : String) : Bool :=
  if desired == "Refi" then is_refi purpose
  else if desired == "Purchase" then is_purchase purpose
  else if desired == "DSCR Investor" then is_investor occ
  else if desired == "Bridge / Fix & Flip" then is_bridge purpose
  else true

/-- Lines 17-30: the alias table, in source order; each canonical target is
paired with its ordered alias list. -/
def COLUMN_ALIASES : List (String × List String) :=
  [("first_name", ["first_name", "first name", "fname", "givenname"]),
   ("last_name", ["last_name", "last name", "lname", "surname"]),
   ("email", ["email", "email_address", "e-mail"]),
   ("phone", ["phone", "phone_number", "mobile"]),
   ("property_value", ["property_value", "est_value", "home_value", "zestimate"]),
   ("loan_purpose", ["purpose", "loan_purpose", "campaign", "deal_type"]),
   ("occupancy", ["occupancy", "occ_type", "owner_type"]),
   ("state", ["state", "property_state", "mail_state"]),
   ("credit_score", ["credit_score", "fico", "credit_band"]),
   ("liquid_assets", ["liquid_assets", "assets", "cash_reserves"]),
   ("cltv", ["cltv", "ltv", "combined_ltv"]),
   ("source", ["source", "lead_source", "origin"])]

/-- The canonical column names: the keys of the alias table. -/
def canonical_targets : List String := COLUMN_ALIASES.map Prod.fst

/-- Dictionary lookup where the LAST insertion wins, as in the Python dict
comprehension of line 35 when two columns case-fold to the same name. -/
def lookupLast (m : List (String × String)) (k : String) : Option String :=
  match m with
  | [] => Option.none
  | (k2, v) :: rest =>
    match lookupLast rest k with
    | some r => some r
    | Option.none => if k2 == k then some v else Option.none

/-- Dictionary lookup over distinct keys (first match). -/
def lookupFirst (m : List (String × String)) (k : String) : Option String :=
  match m with
  | [] => Option.none
  | (k2, v) :: rest => if k2 == k then some v else lookupFirst rest k

/-- Line 35: the case-insensitive lookup of source column names. -/
def lower_map (cols : List String) : List (String × String) :=
  cols.map (fun c => (strLower c, c))

/-- Lines 36-40, one iteration of the outer loop: the first alias of the
target present in the lookup claims its source column (the `break`). -/
def col_map_step (lm : List (String × String)) (acc : List (String × String))
    (p : String × List String) : List (String × String) :=
  match p.2.findSome? (fun a => (lookupLast lm a).map (fun src => (src, p.1))) with
  | some e => acc ++ [e]
  | Option.none => acc

/-- Lines 34-40: the rename map built over the alias table in source order. -/
def build_col_map (lm : List (String × String)) : List (String × String) :=
  COLUMN_ALIASES.foldl (col_map_step lm) []

/-- Lines 33-42, `normalize_columns`: rename every column claimed by the
rename map and pass every other column through unchanged. A record is
modelled by its ordered column-name list; `DataFrame.rename` changes only
labels, never values or order. -/
def normalize_columns (cols : List String) : List String :=
  let cmap := build_col_map (lower_map cols)
  cols.map (fun c => (lookupFirst cmap c).getD c)

/-- Python `x >= c` on an optional float: false when absent or NaN. -/
def optGe (v : Option PyFloat) (c : Rat) : Bool :=
  match v with
  | some x => x.ge_r c
  | Option.none => false

/-- The categorical credit-band label of a record, the empty label when
the field is not a string. -/
def bandLabelOf (v : Value) : String :=
  match v with
  | Value.vStr s => s
  | _ => ""

/-- Modelled from the spec: credit-band contribution of the banding
variant — label 720+, 680-720 or 660-720 gives +30, 620-660 gives +15,
anything else 0. -/
def band_credit (row : Row) : Int :=
  if bandLabelOf row.credit_band = "720+" || bandLabelOf row.credit_band = "680-720"
      || bandLabelOf row.credit_band = "660-720" then 30
  else if bandLabelOf row.credit_band = "620-660" then 15
  else 0

/-- Modelled from the spec: property-value contribution of the banding
variant — at least 500000 gives +20, 250000 to 499999 gives +10. -/
def band_value (row : Row) : Int :=
  if optGe (safe_float row.property_value) 500000 then 20
  else if optGe (safe_float row.property_value) 250000 then 10
  else 0

/-- Modelled from the spec: liquid-assets contribution of the banding
variant — at least 100000 gives +20, 25000 to 99999 gives +10. -/
def band_assets (row : Row) : Int :=
  if optGe (safe_float row.liquid_assets) 100000 then 20
  else if optGe (safe_float row.liquid_assets) 25000 then 10
  else 0

/-- Modelled from the spec: loan-purpose contribution of the banding
variant — a purpose containing refi gives +10 and one containing dscr
gives +10, stacking. -/
def band_purpose (row : Row) : Int :=
  (if strContains (safe_str row.loan_purpose) "refi" then 10 else 0)
    + (if strContains (safe_str row.loan_purpose) "dscr" then 10 else 0)

/-- Modelled from the spec: the banding label thresholds — at least 60 is
HOT, at least 40 WARM, anything lower COLD / LONG-TERM NURTURE. -/
def band_label (total : Int) : String :=
  if 60 ≤ total then "HOT"
  else if 40 ≤ total then "WARM"
  else "COLD / LONG-TERM NURTURE"

/-- Modelled from the spec: the alternate banding strategy of the
single-lead capture flow exists only in repository variants that are not
under src (src holds the batch-filter variant, whose capture tab delegates
lead assessment to the AI summary instead), so it is reconstructed from
spec section 4.2. Independent additive contributions, then the band label;
the strategy never rejects. -/
def band_lead (row : Row) : Int × String :=
  let total := band_credit row + band_value row + band_assets row + band_purpose row
  (total, band_label total)

/-- The property-value block never decreases the running score. -/
theorem apply_value_le (v : Option PyFloat) (s : Int) : s ≤ apply_value v s := by
  unfold apply_value
  repeat' split
  all_goals omega

/-- The CLTV block never decreases the running score. -/
theorem apply_cltv_le (row : Row) (s : Int) : s ≤ apply_cltv row s := by
  unfold apply_cltv
  repeat' split
  all_goals omega

/-- The source-bonus block never decreases the running score. -/
theorem apply_source_le (row : Row) (s : Int) : s ≤ apply_source row s := by
  unfold apply_source
  dsimp only
  repeat' split
  all_goals omega

/-- The tail from the assets check on always returns, with the sentinel or
a total at least the incoming score. -/
theorem score_assets_result (row : Row) (config : Config) (s : Int) :
    ∃ r, score_assets row config s = Except.ok r ∧ (r = -1 ∨ s ≤ r) := by
  cases h : safe_float row.liquid_assets with
  | none =>
    simp only [score_assets, h]
    exact ⟨_, rfl, Or.inr (le_trans (apply_cltv_le row s) (apply_source_le row _))⟩
  | some a =>
    simp only [score_assets, h]
    split
    · exact ⟨-1, rfl, Or.inl rfl⟩
    · refine ⟨_, rfl, Or.inr ?_⟩
      have htier : s ≤ (if a.ge_r 150000 then s + 15 else if a.ge_r 75000 then s + 10
          else if a.ge_r config.min_assets then s + 5 else s) := by
        repeat' split
        all_goals omega
      exact le_trans htier (le_trans (apply_cltv_le row _) (apply_source_le row _))

/-- With a non-negative incoming score, the assets tail returns the
sentinel exactly when the assets check rejects. -/
theorem score_assets_neg1 (row : Row) (config : Config) (s : Int) (hs : 0 ≤ s) :
    (score_assets row config s = Except.ok (-1) ↔ assets_rejects row config = true) := by
  cases h : safe_float row.liquid_assets with
  | none =>
    simp only [score_assets, h, assets_rejects, Except.ok.injEq]
    have := le_trans (apply_cltv_le row s) (apply_source_le row (apply_cltv row s))
    constructor
    · intro heq; omega
    · intro hf; exact absurd hf (by simp)
  | some a =>
    simp only [score_assets, h, assets_rejects]
    split
    · simp_all
    · rename_i hlt
      simp only [Except.ok.injEq]
      have htier : s ≤ (if a.ge_r 150000 then s + 15 else if a.ge_r 75000 then s + 10
          else if a.ge_r config.min_assets then s + 5 else s) := by
        repeat' split
        all_goals omega
      have := le_trans htier (le_trans (apply_cltv_le row _) (apply_source_le row _))
      constructor
      · intro heq; omega
      · intro hf; exact absurd hf (by simp [hlt])

/-- The tail from the credit check on always returns, with the sentinel or
a total at least the incoming score. -/
theorem score_credit_result (row : Row) (config : Config) (s : Int) :
    ∃ r, score_credit row config s = Except.ok r ∧ (r = -1 ∨ s ≤ r) := by
  cases h : safe_float row.credit_score with
  | none =>
    simpa only [score_credit, h] using score_assets_result row config s
  | some c =>
    simp only [score_credit, h]
    split
    · exact ⟨-1, rfl, Or.inl rfl⟩
    · have htier : s ≤ (if c.ge_r 740 then s + 15 else if c.ge_r 700 then s + 10
          else if c.ge_r config.min_credit then s + 5 else s) := by
        repeat' split
        all_goals omega
      obtain ⟨r, hr, hor⟩ := score_assets_result row config _
      exact ⟨r, hr, hor.imp id (fun hle => le_trans htier hle)⟩

/-- With a non-negative incoming score, the credit tail returns the
sentinel exactly when the credit check or the assets check rejects. -/
theorem score_credit_neg1 (row : Row) (config : Config) (s : Int) (hs : 0 ≤ s) :
    (score_credit row config s = Except.ok (-1) ↔
      (credit_rejects row config = true ∨ assets_rejects row config = true)) := by
  cases h : safe_float row.credit_score with
  | none =>
    simp only [score_credit, h, credit_rejects]
    rw [score_assets_neg1 row config s hs]
    simp
  | some c =>
    simp only [score_credit, h, credit_rejects]
    split
    · rename_i hlt; simp [hlt]
    · rename_i hlt
      have htier : s ≤ (if c.ge_r 740 then s + 15 else if c.ge_r 700 then s + 10
          else if c.ge_r config.min_credit then s + 5 else s) := by
        repeat' split
        all_goals omega
      rw [score_assets_neg1 row config _ (le_trans hs htier)]
      simp [hlt]

/-- The engine propagates the line-63 exception. -/
theorem score_lead_error (row : Row) (config : Config) (e : Unit)
    (hst : stateEval row = Except.error e) :
    score_lead row config = Except.error e := by
  unfold score_lead
  rw [hst]

/-- A returned result means line 63 did not raise. -/
theorem score_lead_ok_state (row : Row) (config : Config) (r : Int)
    (h : score_lead row config = Except.ok r) :
    ∃ st, stateEval row = Except.ok st := by
  by_contra hc
  push_neg at hc
  cases hst : stateEval row with
  | ok st => exact hc st hst
  | error e => rw [score_lead_error row config e hst] at h; exact Except.noConfusion h

/-- A failed product gate returns the sentinel immediately. -/
theorem score_lead_gate (row : Row) (config : Config) (st : String)
    (hst : stateEval row = Except.ok st)
    (hpm : product_match config.product_focus (safe_str row.loan_purpose)
      (safe_str row.occupancy) = false) :
    score_lead row config = Except.ok (-1) := by
  unfold score_lead
  rw [hst]
  dsimp only
  split
  · rfl
  split
  · rfl
  split
  · rfl
  split
  · rfl
  · exfalso
    rename_i h1 h2 h3 h4
    unfold product_match at hpm
    cases hr : config.product_focus == "Refi" with
    | true =>
      simp only [hr, if_true] at hpm
      simp [hr, hpm] at h1
    | false =>
      simp only [hr, Bool.false_eq_true, if_false] at hpm
      cases hp : config.product_focus == "Purchase" with
      | true =>
        simp only [hp, if_true] at hpm
        simp [hp, hpm] at h2
      | false =>
        simp only [hp, Bool.false_eq_true, if_false] at hpm
        cases hd : config.product_focus == "DSCR Investor" with
        | true =>
          simp only [hd, if_true] at hpm
          simp [hd, hpm] at h3
        | false =>
          simp only [hd, Bool.false_eq_true, if_false] at hpm
          cases hb : config.product_focus == "Bridge / Fix & Flip" with
          | true =>
            simp only [hb, if_true] at hpm
            simp [hb, hpm] at h4
          | false =>
            simp only [hb, Bool.false_eq_true, if_false] at hpm
            exact Bool.noConfusion hpm

/-- A passed product gate hands the base, state and property-value total to
the credit tail. -/
theorem score_lead_pass (row : Row) (config : Config) (st : String)
    (hst : stateEval row = Except.ok st)
    (hpm : product_match config.product_focus (safe_str row.loan_purpose)
      (safe_str row.occupancy) = true) :
    score_lead row config = score_credit row config
      (apply_value (safe_float row.property_value)
        (if !config.states.isEmpty && config.states.contains st then 20 else 5)) := by
  have gates : (config.product_focus == "Refi" && !is_refi (safe_str row.loan_purpose)) = false
      ∧ (config.product_focus == "Purchase" && !is_purchase (safe_str row.loan_purpose)) = false
      ∧ (config.product_focus == "DSCR Investor" && !is_investor (safe_str row.occupancy)) = false
      ∧ (config.product_focus == "Bridge / Fix & Flip" && !is_bridge (safe_str row.loan_purpose)) = false := by
    unfold product_match at hpm
    cases hr : config.product_focus == "Refi" with
    | true =>
      have heq := eq_of_beq hr
      simp only [hr, if_true] at hpm
      simp [heq, hpm]
    | false =>
      simp only [hr, Bool.false_eq_true, if_false] at hpm
      cases hp : config.product_focus == "Purchase" with
      | true =>
        have heq := eq_of_beq hp
        simp only [hp, if_true] at hpm
        simp [heq, hpm]
      | false =>
        simp only [hp, Bool.false_eq_true, if_false] at hpm
        cases hd : config.product_focus == "DSCR Investor" with
        | true =>
          have heq := eq_of_beq hd
          simp only [hd, if_true] at hpm
          simp [heq, hpm]
        | false =>
          simp only [hd, Bool.false_eq_true, if_false] at hpm
          cases hb : config.product_focus == "Bridge / Fix & Flip" with
          | true =>
            have heq := eq_of_beq hb
            simp only [hb, if_true] at hpm
            simp [heq, hpm]
          | false =>
            simp [hr, hp, hd, hb]
  obtain ⟨g1, g2, g3, g4⟩ := gates
  unfold score_lead
  rw [hst]
  dsimp only
  simp only [g1, g2, g3, g4, Bool.false_eq_true, if_false]
  split
  · norm_num
  · norm_num

/-- A hit of findSome? comes from some element of the list. -/
theorem findSome?_exists {α β : Type} (f : α → Option β) (l : List α) (b : β)
    (h : l.findSome? f = some b) : ∃ a, a ∈ l ∧ f a = some b := by
  induction l with
  | nil => simp [List.findSome?] at h
  | cons x xs ih =>
    rw [List.findSome?_cons] at h
    cases hx : f x with
    | some v =>
      rw [hx] at h
      dsimp only at h
      exact ⟨x, List.mem_cons_self x xs, by rw [hx]; exact h⟩
    | none =>
      rw [hx] at h
      dsimp only at h
      obtain ⟨a, ha, hfa⟩ := ih h
      exact ⟨a, List.mem_cons_of_mem x ha, hfa⟩

/-- A last-wins lookup hit in the case-folding map names a source column
whose lower-casing is the key. -/
theorem lookupLast_some (cols : List String) (k src : String)
    (h : lookupLast (lower_map cols) k = some src) :
    src ∈ cols ∧ strLower src = k := by
  induction cols generalizing src with
  | nil => simp [lower_map, lookupLast] at h
  | cons c cs ih =>
    simp only [lower_map, List.map_cons, lookupLast] at h
    cases hrec : lookupLast (List.map (fun c => (strLower c, c)) cs) k with
    | some r =>
      rw [hrec] at h
      dsimp only at h
      cases h
      obtain ⟨hmem, hlow⟩ := ih _ (by simpa [lower_map] using hrec)
      exact ⟨List.mem_cons_of_mem c hmem, hlow⟩
    | none =>
      rw [hrec] at h
      dsimp only at h
      split at h
      · rename_i hbeq
        cases h
        exact ⟨List.mem_cons_self c cs, eq_of_beq hbeq⟩
      · exact Option.noConfusion h

/-- Table fact: no alias of any canonical field is itself a canonical
column name of a different field. -/
theorem alias_target_eq : ∀ p ∈ COLUMN_ALIASES, ∀ a ∈ p.2, a ∈ canonical_targets → a = p.1 := by
  decide

/-- Table fact: every canonical column name is already lower-case. -/
theorem targets_lower : ∀ t ∈ canonical_targets, strLower t = t := by
  decide

/-- Over a record whose columns are all canonical, every entry of the
rename map renames a column to itself. -/
theorem col_map_id (cols : List String) (H : ∀ c ∈ cols, c ∈ canonical_targets) :
    ∀ e ∈ build_col_map (lower_map cols), e.1 = e.2 := by
  unfold build_col_map
  suffices aux : ∀ (l : List (String × List String)), (∀ p ∈ l, p ∈ COLUMN_ALIASES) →
      ∀ (acc : List (String × String)), (∀ e ∈ acc, e.1 = e.2) →
      ∀ e ∈ List.foldl (col_map_step (lower_map cols)) acc l, e.1 = e.2 by
    exact aux COLUMN_ALIASES (fun p hp => hp) [] (by simp)
  intro l
  induction l with
  | nil =>
    intro _ acc hacc e he
    simpa using hacc e (by simpa using he)
  | cons p rest ih =>
    intro hl acc hacc e he
    simp only [List.foldl_cons] at he
    refine ih (fun q hq => hl q (List.mem_cons_of_mem p hq)) _ ?_ e he
    intro e2 he2
    unfold col_map_step at he2
    cases hfs : p.2.findSome? (fun a => (lookupLast (lower_map cols) a).map (fun src => (src, p.1))) with
    | none =>
      rw [hfs] at he2
      exact hacc e2 he2
    | some pr =>
      rw [hfs] at he2
      rcases List.mem_append.mp he2 with hmem | hmem
      · exact hacc e2 hmem
      · have he2' : e2 = pr := by simpa using hmem
        obtain ⟨a, ha, hmap⟩ := findSome?_exists _ _ _ hfs
        cases hlk : lookupLast (lower_map cols) a with
        | none =>
          rw [hlk] at hmap
          exact Option.noConfusion hmap
        | some src =>
          rw [hlk] at hmap
          dsimp only [Option.map] at hmap
          have hpr : pr = (src, p.1) := by
            cases hmap
            rfl
          obtain ⟨hsrc_mem, hsrc_low⟩ := lookupLast_some cols a src hlk
          have hsrc_t : src ∈ canonical_targets := H src hsrc_mem
          have hself : strLower src = src := targets_lower src hsrc_t
          have haeq : a = src := by rw [← hsrc_low, hself]
          have hat : a ∈ canonical_targets := haeq ▸ hsrc_t
          have hpa : a = p.1 := alias_target_eq p (hl p (List.mem_cons_self p rest)) a ha hat
          rw [he2', hpr]
          simpa using (haeq.symm.trans hpa)

/-- A first-match lookup over an identity rename map leaves every key
unchanged. -/
theorem lookupFirst_id (m : List (String × String)) (hm : ∀ e ∈ m, e.1 = e.2) (k : String) :
    (lookupFirst m k).getD k = k := by
  induction m with
  | nil => rfl
  | cons e rest ih =>
    obtain ⟨k2, v⟩ := e
    unfold lookupFirst
    cases hbeq : k2 == k with
    | true =>
      have hk : k2 = k := eq_of_beq hbeq
      have hv : k2 = v := hm (k2, v) (List.mem_cons_self _ _)
      simp [← hv, hk]
    | false =>
      simp only [hbeq, Bool.false_eq_true, if_false]
      exact ih (fun e2 he2 => hm e2 (List.mem_cons_of_mem _ he2))

/-- A rejecting credit check returns the sentinel at once. -/
theorem score_credit_reject (row : Row) (config : Config) (s : Int)
    (h : credit_rejects row config = true) :
    score_credit row config s = Except.ok (-1) := by
  unfold credit_rejects at h
  cases hcs : safe_float row.credit_score with
  | none => rw [hcs] at h; exact Bool.noConfusion h
  | some c =>
    rw [hcs] at h
    dsimp only at h
    simp only [score_credit, hcs, h, if_true]

/-- Raising the minimum credit threshold preserves a credit rejection. -/
theorem credit_rejects_le (row : Row) (c1 c2 : Config)
    (hm : c1.min_credit ≤ c2.min_credit)
    (h : credit_rejects row c1 = true) : credit_rejects row c2 = true := by
  unfold credit_rejects at h ⊢
  cases hcs : safe_float row.credit_score with
  | none =>
    rw [hcs] at h
    dsimp only at h
    exact Bool.noConfusion h
  | some c =>
    rw [hcs] at h
    dsimp only at h ⊢
    cases c with
    | nan => exact Bool.noConfusion h
    | num q =>
      simp only [PyFloat.lt_r, decide_eq_true_eq] at h ⊢
      exact lt_of_lt_of_le h hm

/-- The assets rejection condition reads only the assets minimum. -/
theorem assets_rejects_congr (row : Row) (c1 c2 : Config)
    (ha : c1.min_assets = c2.min_assets) :
    assets_rejects row c1 = assets_rejects row c2 := by
  unfold assets_rejects
  rw [ha]

/-- Every returned batch score is the sentinel -1 or at least 5. -/
theorem score_lead_ok_cases (row : Row) (config : Config) (r : Int)
    (h : score_lead row config = Except.ok r) : r = -1 ∨ 5 ≤ r := by
  obtain ⟨st, hst⟩ := score_lead_ok_state row config r h
  cases hpm : product_match config.product_focus (safe_str row.loan_purpose)
      (safe_str row.occupancy) with
  | false =>
    rw [score_lead_gate row config st hst hpm] at h
    left
    cases h
    rfl
  | true =>
    rw [score_lead_pass row config st hst hpm] at h
    have h5 : (5 : Int) ≤ apply_value (safe_float row.property_value)
        (if !config.states.isEmpty && config.states.contains st then 20 else 5) := by
      refine le_trans ?_ (apply_value_le _ _)
      split
      · omega
      · omega
    obtain ⟨r2, hr2, hor⟩ := score_credit_result row config _
    rw [hr2] at h
    cases h
    rcases hor with h1 | h1
    · exact Or.inl h1
    · exact Or.inr (le_trans h5 h1)

/- Concrete records and configurations used by the claim instances. -/

def c1_row : Row := ⟨Value.vNone, Value.vNone, Value.vNone, Value.vNone, Value.vNone,
  Value.vNone, Value.vNone, Value.vNone, Value.vNone⟩

def c1_cfg : Config := ⟨"Any", [], 640, 20000⟩

/-- Claim C1 counterexample: under product Any with empty target_states and
no min-credit or min-assets rejection, the code returns 5, not at least 10:
the -5 state penalty fires even on the empty set (line 83 tests
`config["states"] and state in config["states"]`, whose else branch
subtracts 5). -/
theorem c1_empty_states_counterexample :
    score_lead c1_row c1_cfg = Except.ok 5 ∧ ¬(10 ≤ (5 : Int)) :=
  ⟨rfl, by omega⟩

/-- Claim C1 (amended): with an empty target_states set the -5 mismatch
penalty IS applied (membership in the empty set fails), so under
product_focus Any with empty target_states every accepted score is at
least 5 — not 10 — and 5 is attained. -/
theorem c1_empty_states_floor (row : Row) (config : Config) (r : Int)
    (_hfocus : config.product_focus = "Any") (_hstates : config.states = [])
    (h : score_lead row config = Except.ok r) (hacc : r ≠ -1) : 5 ≤ r := by
  rcases score_lead_ok_cases row config r h with h1 | h1
  · exact absurd h1 hacc
  · exact h1

/-- Claim C1 witness: the floor theorem applied to the all-absent record. -/
theorem c1_empty_states_floor_witness :
    score_lead c1_row c1_cfg = Except.ok 5 ∧ (5 : Int) ≤ 5 :=
  ⟨rfl, c1_empty_states_floor c1_row c1_cfg 5 rfl rfl rfl (by decide)⟩

def c2_row : Row := ⟨Value.vNan, Value.vStr "refi", Value.vNone, Value.vNone, Value.vNone,
  Value.vNone, Value.vNone, Value.vNone, Value.vNone⟩

def c2_cfg : Config := ⟨"Any", ["CA"], 640, 20000⟩

/-- Claim C2: the engine is NOT total. A NaN state cell — exactly what an
empty cell of a present state column becomes in the batch CSV path — makes
line 63 raise AttributeError: NaN is truthy, so
`(row.get("state") or "").upper()` calls `.upper()` on a float. Every other
field goes through safe_str or safe_float and is handled; the state field
contradicts the claim. -/
theorem c2_nan_state_raises :
    score_lead c2_row c2_cfg = Except.error () := rfl

def c3_row : Row := ⟨Value.vNone, Value.vNone, Value.vNone, Value.vNone, Value.vNum 600,
  Value.vNone, Value.vNone, Value.vNone, Value.vNone⟩

def c3_cfg : Config := ⟨"Any", [], 640, 20000⟩

/-- Claim C3: if a numeric credit score is present and below min_credit,
any returned result is the sentinel -1, whatever the other fields hold
(the gate path and the additive path both collapse to the sentinel), and
scoring is pure, so a second scoring of the same record returns the same
sentinel. -/
theorem c3_low_credit_sentinel (row : Row) (config : Config) (q : Rat) (r : Int)
    (hq : safe_float row.credit_score = some (PyFloat.num q))
    (hlt : q < config.min_credit)
    (h : score_lead row config = Except.ok r) :
    r = -1 ∧ score_lead row config = score_lead row config := by
  refine ⟨?_, rfl⟩
  have hcr : credit_rejects row config = true := by
    unfold credit_rejects
    rw [hq]
    dsimp only
    simp [PyFloat.lt_r, hlt]
  obtain ⟨st, hst⟩ := score_lead_ok_state row config r h
  cases hpm : product_match config.product_focus (safe_str row.loan_purpose)
      (safe_str row.occupancy) with
  | false =>
    rw [score_lead_gate row config st hst hpm] at h
    cases h
    rfl
  | true =>
    rw [score_lead_pass row config st hst hpm, score_credit_reject row config _ hcr] at h
    cases h
    rfl

/-- Claim C3 witness: credit 600 against minimum 640. -/
theorem c3_low_credit_sentinel_witness :
    (-1 : Int) = -1 ∧ score_lead c3_row c3_cfg = score_lead c3_row c3_cfg :=
  c3_low_credit_sentinel c3_row c3_cfg 600 (-1) rfl (by norm_num [c3_cfg]) rfl

def c4_row : Row := ⟨Value.vNone, Value.vNone, Value.vNone, Value.vNone, Value.vNum 600,
  Value.vNone, Value.vNone, Value.vNone, Value.vNone⟩

def c4_cfg1 : Config := ⟨"Any", [], 640, 20000⟩

def c4_cfg2 : Config := ⟨"Any", [], 700, 20000⟩

/-- Claim C4: for a fixed record and two configurations that differ only in
min_credit_score, rejection under the lower threshold implies rejection
under the higher one — raising the threshold never un-rejects. -/
theorem c4_min_credit_monotone (row : Row) (c1 c2 : Config)
    (hf : c1.product_focus = c2.product_focus) (hs : c1.states = c2.states)
    (ha : c1.min_assets = c2.min_assets) (hm : c1.min_credit ≤ c2.min_credit)
    (h : score_lead row c1 = Except.ok (-1)) :
    score_lead row c2 = Except.ok (-1) := by
  obtain ⟨st, hst⟩ := score_lead_ok_state row c1 (-1) h
  cases hpm : product_match c1.product_focus (safe_str row.loan_purpose)
      (safe_str row.occupancy) with
  | false =>
    apply score_lead_gate row c2 st hst
    rw [← hf]
    exact hpm
  | true =>
    have hpm2 : product_match c2.product_focus (safe_str row.loan_purpose)
        (safe_str row.occupancy) = true := by
      rw [← hf]
      exact hpm
    rw [score_lead_pass row c1 st hst hpm] at h
    have h0 : (0 : Int) ≤ apply_value (safe_float row.property_value)
        (if !c1.states.isEmpty && c1.states.contains st then 20 else 5) := by
      refine le_trans ?_ (apply_value_le _ _)
      split <;> omega
    rw [score_credit_neg1 row c1 _ h0] at h
    rw [score_lead_pass row c2 st hst hpm2]
    have hseq : (if !c2.states.isEmpty && c2.states.contains st then (20 : Int) else 5)
        = (if !c1.states.isEmpty && c1.states.contains st then 20 else 5) := by
      rw [hs]
    rw [hseq, score_credit_neg1 row c2 _ h0]
    rcases h with hc | hassets
    · exact Or.inl (credit_rejects_le row c1 c2 hm hc)
    · exact Or.inr ((assets_rejects_congr row c1 c2 ha) ▸ hassets)

/-- Claim C4 witness: credit 600, thresholds 640 and 700. -/
theorem c4_min_credit_monotone_witness :
    score_lead c4_row c4_cfg2 = Except.ok (-1) :=
  c4_min_credit_monotone c4_row c4_cfg1 c4_cfg2 rfl rfl rfl (by norm_num [c4_cfg1, c4_cfg2]) rfl

def c5_row : Row := ⟨Value.vStr "CA", Value.vStr "Cash-Out Refi", Value.vStr "Investor",
  Value.vNum 600000, Value.vNum 760, Value.vNone, Value.vNum 200000, Value.vNum 55,
  Value.vStr "facebook_ads"⟩

def c5_cfg : Config := ⟨"Purchase", ["CA"], 640, 20000⟩

/-- Claim C5: the product gate rejects exactly the records whose keyword
test fails for the configured focus: a failing keyword test forces the
sentinel; with a passing test (which is always the case under Any) any
sentinel must come from the credit or assets minimum, never the product;
and the scenario record with loan_purpose "Cash-Out Refi" is rejected
under Purchase focus. -/
theorem c5_product_gate (row : Row) (config : Config) (st : String)
    (hst : stateEval row = Except.ok st) :
    (product_match config.product_focus (safe_str row.loan_purpose)
        (safe_str row.occupancy) = false →
      score_lead row config = Except.ok (-1))
    ∧ (product_match config.product_focus (safe_str row.loan_purpose)
        (safe_str row.occupancy) = true →
      score_lead row config = Except.ok (-1) →
      credit_rejects row config = true ∨ assets_rejects row config = true)
    ∧ (config.product_focus = "Any" →
      product_match config.product_focus (safe_str row.loan_purpose)
        (safe_str row.occupancy) = true)
    ∧ score_lead c5_row c5_cfg = Except.ok (-1) := by
  refine ⟨fun hpm => score_lead_gate row config st hst hpm, fun hpm h => ?_,
    fun hAny => ?_, rfl⟩
  · rw [score_lead_pass row config st hst hpm] at h
    have h0 : (0 : Int) ≤ apply_value (safe_float row.property_value)
        (if !config.states.isEmpty && config.states.contains st then 20 else 5) := by
      refine le_trans ?_ (apply_value_le _ _)
      split <;> omega
    rw [score_credit_neg1 row config _ h0] at h
    exact h
  · simp [product_match, hAny]

/-- Claim C5 witness: the gate theorem applied to the scenario record under
Purchase focus. -/
theorem c5_product_gate_witness :
    score_lead c5_row c5_cfg = Except.ok (-1) :=
  (c5_product_gate c5_row c5_cfg "CA" rfl).1 rfl

def c6_row : Row := ⟨Value.vStr "CA", Value.vStr "Cash-Out Refi", Value.vStr "Investor",
  Value.vNum 600000, Value.vNum 760, Value.vNone, Value.vNum 200000, Value.vNum 55,
  Value.vStr "facebook_ads"⟩

def c6_cfg : Config := ⟨"Refi", ["CA"], 640, 20000⟩

/-- Claim C6: the spec scenario record under Refi focus is accepted with
exactly 85 = 10 base + 10 state + 15 value + 15 credit + 15 assets
+ 15 cltv + 5 facebook. -/
theorem c6_scenario_score : score_lead c6_row c6_cfg = Except.ok 85 := rfl

set_option maxHeartbeats 2000000 in
/-- Claim C7 counterexample: the spec's canonical field set admits
credit_band (the categorical alternative to credit_score) and notes; a
record with exactly those canonical keys is renamed, because credit_band
is an alias of credit_score in the table — normalization is not a no-op
on it. -/
theorem c7_canonical_renamed_counterexample :
    normalize_columns ["first_name", "last_name", "email", "phone", "state", "occupancy",
      "loan_purpose", "property_value", "credit_band", "liquid_assets", "cltv", "source", "notes"]
    ≠ ["first_name", "last_name", "email", "phone", "state", "occupancy",
      "loan_purpose", "property_value", "credit_band", "liquid_assets", "cltv", "source", "notes"] := by
  decide

/-- Claim C7 (amended): for every record whose column names are all
canonical alias-table targets (the credit_score spelling of the credit
field, not the spec-level credit_band alternative), normalization is a
no-op — no column is renamed, none lost or duplicated — and hence
idempotent. -/
theorem c7_canonical_noop (cols : List String)
    (H : ∀ c ∈ cols, c ∈ canonical_targets) :
    normalize_columns cols = cols
    ∧ normalize_columns (normalize_columns cols) = normalize_columns cols := by
  have h1 : normalize_columns cols = cols := by
    unfold normalize_columns
    have hid := col_map_id cols H
    have hce : ∀ c ∈ cols, (lookupFirst (build_col_map (lower_map cols)) c).getD c = c :=
      fun c _ => lookupFirst_id _ hid c
    exact (List.map_congr_left hce).trans (List.map_id cols)
  exact ⟨h1, by rw [h1, h1]⟩

/-- Claim C7 witness: the full canonical target list is left unchanged. -/
theorem c7_canonical_noop_witness :
    normalize_columns canonical_targets = canonical_targets :=
  (c7_canonical_noop canonical_targets (fun _ hc => hc)).1

def c9_row : Row := ⟨Value.vNone, Value.vStr "DSCR Refi", Value.vNone, Value.vNum 500000,
  Value.vNone, Value.vStr "660-720", Value.vNum 50000, Value.vNone, Value.vNone⟩

/-- Claim C9: the banding strategy (band_lead, modelled from the spec — the
variant holding it is not under src) is a separate pure function that never
rejects: every total is non-negative, never the sentinel; and the scenario
record with credit band 660-720, value 500000, assets 50000 and purpose
DSCR Refi totals 80 and bands HOT. -/
theorem c9_banding_strategy :
    (∀ r : Row, 0 ≤ (band_lead r).1) ∧ band_lead c9_row = (80, "HOT") := by
  constructor
  · intro r
    have hc : 0 ≤ band_credit r := by
      unfold band_credit
      repeat' split
      all_goals omega
    have hv : 0 ≤ band_value r := by
      unfold band_value
      repeat' split
      all_goals omega
    have ha : 0 ≤ band_assets r := by
      unfold band_assets
      repeat' split
      all_goals omega
    have hp : 0 ≤ band_purpose r := by
      unfold band_purpose
      repeat' split
      all_goals omega
    unfold band_lead
    dsimp only
    omega
  · rfl

def c10_row : Row := ⟨Value.vNone, Value.vNone, Value.vNone, Value.vNone, Value.vNone,
  Value.vNone, Value.vNone, Value.vNone, Value.vNone⟩

def c10_cfg : Config := ⟨"Any", [], 640, 20000⟩

/-- Claim C10: every returned batch result is the sentinel -1 or a total of
at least 5, so no accepted score is negative, the sentinel never collides
with an accepted total, and the pipeline filter score >= 0 keeps exactly
the non-rejected records. -/
theorem c10_sentinel_separation (row : Row) (config : Config) (r : Int)
    (h : score_lead row config = Except.ok r) :
    (r = -1 ∨ 5 ≤ r) ∧ (0 ≤ r ↔ r ≠ -1) := by
  rcases score_lead_ok_cases row config r h with h1 | h1
  · subst h1
    refine ⟨Or.inl rfl, ?_⟩
    constructor
    · intro h0
      omega
    · intro hne
      exact absurd rfl hne
  · refine ⟨Or.inr h1, ?_⟩
    constructor
    · intro _ hne
      omega
    · intro _
      omega

/-- Claim C10 witness: the all-absent record scores 5 under Any focus. -/
theorem c10_sentinel_separation_witness :
    ((5 : Int) = -1 ∨ (5 : Int) ≤ 5) ∧ ((0 : Int) ≤ 5 ↔ (5 : Int) ≠ -1) :=
  c10_sentinel_separation c10_row c10_cfg 5 rfl

end Fetti
